import Mathlib

/-!
# Verification of the GeoCosiCorr3D CLI correlation orchestration

Shallow embedding of `src/scripts/cosicorr.py`: the `correlate`,
`batch_correlate` and `multi_band_correlation` sub-commands of the
`cosicorr3d` CLI.  External collaborators (the filesystem `glob`,
`os.path.isdir`, `os.getcwd`, the raster reader giving the band count,
and constants defined outside this repository such as
`C.SOFTWARE.WKDIR`) are passed in as explicit parameters.  The
correlation engine itself (`geoCosiCorr3D.geoImageCorrelation.correlate.
Correlate`) is not part of the repository slice under verification; the
CLI layer is modelled up to the exact argument record it hands to that
engine, and the engine-internal behaviour needed by two claims is
modelled from the specification (clearly marked below).
-/

namespace CosiCorr

/-- The two correlation methods selectable on the CLI
(`C.CORR_METHODS.FREQUENCY_CORR` / `C.CORR_METHODS.SPATIAL_CORR`);
`argparse` restricts `--method` to exactly these two choices. -/
inductive CorrMethod
  | frequency
  | spatial
deriving DecidableEq, Repr

/-- A value stored in the `correlator_params` dictionary built by
`correlate_func`.  Python floats carry no arithmetic here, so they are
embedded as rationals. -/
inductive ParamValue
  | ints (v : List Int)
  | bool (v : Bool)
  | rat (v : ℚ)
  | int (v : Int)
  | optInts (v : Option (List Int))
deriving DecidableEq, Repr

/-- The `corr_config` dictionary built by `correlate_func`
(cosicorr.py lines 93-115): a correlator name plus an ordered
association list of correlator parameters. -/
structure CorrConfig where
  correlator_name : CorrMethod
  correlator_params : List (String × ParamValue)
deriving DecidableEq, Repr

/-- The `argparse.Namespace` consumed by `correlate_func`.  Fields not
required (`--search_range` has no default) are `Option`s; `store_true`
flags are `Bool`s. -/
structure CorrelateArgs where
  base_image : String
  target_image : String
  base_band : Int
  target_band : Int
  output_path : String
  method : CorrMethod
  window_size : List Int
  step : List Int
  grid : Bool
  show_flag : Bool
  pixel_based : Bool
  vmin : ℚ
  vmax : ℚ
  mask_th : ℚ
  nb_iters : Int
  search_range : Option (List Int)
deriving DecidableEq, Repr

/-- The keyword-argument record of one `Correlate(...)` engine
invocation (cosicorr.py lines 117-127). -/
structure CorrelateCall where
  base_image_path : String
  target_image_path : String
  base_band : Int
  target_band : Int
  output_corr_path : String
  corr_config : CorrConfig
  corr_show : Bool
  pixel_based_correlation : Bool
  vmin : ℚ
  vmax : ℚ
deriving DecidableEq, Repr

/-- `correlate_func` (cosicorr.py lines 91-127): builds the per-method
`corr_config` dictionary and invokes the correlation engine once; the
embedding returns the engine invocation record. -/
def correlate_func (args : CorrelateArgs) : CorrelateCall :=
  let corr_config : CorrConfig :=
    match args.method with
    | CorrMethod.frequency =>
        { correlator_name := CorrMethod.frequency
          correlator_params :=
            [("window_size", ParamValue.ints args.window_size),
             ("step", ParamValue.ints args.step),
             ("grid", ParamValue.bool args.grid),
             ("mask_th", ParamValue.rat args.mask_th),
             ("nb_iters", ParamValue.int args.nb_iters)] }
    | CorrMethod.spatial =>
        { correlator_name := CorrMethod.spatial
          correlator_params :=
            [("window_size", ParamValue.ints args.window_size),
             ("step", ParamValue.ints args.step),
             ("grid", ParamValue.bool args.grid),
             ("search_range", ParamValue.optInts args.search_range)] }
  { base_image_path := args.base_image
    target_image_path := args.target_image
    base_band := args.base_band
    target_band := args.target_band
    output_corr_path := args.output_path
    corr_config := corr_config
    corr_show := args.show_flag
    pixel_based_correlation := args.pixel_based
    vmin := args.vmin
    vmax := args.vmax }

/-- Errors raised by the CLI layer (`raise ValueError(...)` sites and
failure modes of the Python runtime it relies on).  Constructors carry
the data interpolated into the corresponding Python message. -/
inductive CliError
  /-- `batch_correlate_func`, serial mode: the list lengths named in the
  message. -/
  | serialLengthMismatch (nBase nTarget : Nat)
  /-- `multiband_correlate_func`: input image has fewer than two bands. -/
  | tooFewBands (numBands : Nat)
  /-- `multiband_correlate_func`: the output path exists and is not a
  directory. -/
  | outputPathNotDirectory (path : String)
  /-- `int(...)` failed while parsing `--band_combination`. -/
  | intParseError
  /-- tuple unpacking `base_band, target_band = comb` failed because the
  combination does not have exactly two entries. -/
  | unpackMismatch (gotLength : Nat)
deriving DecidableEq, Repr

/-- The `argparse.Namespace` consumed by `batch_correlate_func`. -/
structure BatchCorrelateArgs where
  base_images : String
  target_images : String
  serial : Bool
  all : Bool
  base_bands : Option (List Int)
  target_bands : Option (List Int)
  output_path : String
  method : CorrMethod
  window_size : List Int
  step : List Int
  grid : Bool
  show_flag : Bool
  pixel_based : Bool
  vmin : ℚ
  vmax : ℚ
  mask_th : ℚ
  nb_iters : Int
  search_range : Option (List Int)
deriving DecidableEq, Repr

/-- Split a character list at every occurrence of the separator,
keeping empty pieces — the semantics of Python's `str.split(sep)` for a
one-character separator (structural, so that the kernel can evaluate
it, unlike `String.splitOn`). -/
def split_on_char (sep : Char) : List Char → List (List Char)
  | [] => [[]]
  | c :: cs =>
    let r := split_on_char sep cs
    if c = sep then [] :: r
    else
      match r with
      | [] => [[c]]
      | h :: t => (c :: h) :: t

/-- Python's `s.split(sep)` for a one-character separator. -/
def py_split (s : String) (sep : Char) : List String :=
  (split_on_char sep s.data).map String.mk

/-- `sep.join(l)` / `String.intercalate`, structurally. -/
def join_with (sep : String) : List String → String
  | [] => ""
  | [x] => x
  | x :: y :: xs => x ++ sep ++ join_with sep (y :: xs)

/-- The glob-accumulation loop of `batch_correlate_func`
(cosicorr.py lines 134-139): split the comma-separated pattern string
and `extend` the result list with each pattern's expansion.  The
filesystem `glob.glob` is the explicit parameter `glob`. -/
def glob_resolve (glob : String → List String) (patterns : String) : List String :=
  (py_split patterns ',').foldl (fun acc pattern => acc ++ glob pattern) []

/-- `args.base_bands if args.base_bands else [1] * len(images)`
(cosicorr.py lines 141-142): Python truthiness makes both `None` and an
empty list fall back to the default. -/
def resolve_bands (bands : Option (List Int)) (n : Nat) : List Int :=
  match bands with
  | some bs => if bs.isEmpty then List.replicate n 1 else bs
  | none => List.replicate n 1

/-- The resolved base image list of a `batch_correlate` invocation. -/
def base_images_resolved (glob : String → List String) (a : BatchCorrelateArgs) : List String :=
  glob_resolve glob a.base_images

/-- The resolved target image list of a `batch_correlate` invocation. -/
def target_images_resolved (glob : String → List String) (a : BatchCorrelateArgs) : List String :=
  glob_resolve glob a.target_images

/-- The resolved base band list of a `batch_correlate` invocation. -/
def base_bands_resolved (glob : String → List String) (a : BatchCorrelateArgs) : List Int :=
  resolve_bands a.base_bands (base_images_resolved glob a).length

/-- The resolved target band list of a `batch_correlate` invocation. -/
def target_bands_resolved (glob : String → List String) (a : BatchCorrelateArgs) : List Int :=
  resolve_bands a.target_bands (target_images_resolved glob a).length

/-- Python's four-list `zip`: truncates at the shortest list. -/
def zip4 {α β γ δ : Type} : List α → List β → List γ → List δ → List (α × β × γ × δ)
  | a :: as, b :: bs, c :: cs, d :: ds => (a, b, c, d) :: zip4 as bs cs ds
  | _, _, _, _ => []

/-- The `argparse.Namespace(...)` literal built for each correlation in
`batch_correlate_func` (identical field list in the serial and all-pairs
branches, cosicorr.py lines 156-172 and 178-193). -/
def batch_namespace (a : BatchCorrelateArgs) (base_image target_image : String)
    (base_band target_band : Int) : CorrelateArgs :=
  { base_image := base_image
    target_image := target_image
    base_band := base_band
    target_band := target_band
    output_path := a.output_path
    method := a.method
    window_size := a.window_size
    step := a.step
    grid := a.grid
    show_flag := a.show_flag
    pixel_based := a.pixel_based
    vmin := a.vmin
    vmax := a.vmax
    mask_th := a.mask_th
    nb_iters := a.nb_iters
    search_range := a.search_range }

/-- The serial-mode loop body of `batch_correlate_func`
(cosicorr.py lines 154-172): one `correlate_func` call per element of
`zip(base_images, target_images, base_bands, target_bands)`. -/
def serial_calls (glob : String → List String) (a : BatchCorrelateArgs) : List CorrelateCall :=
  (zip4 (base_images_resolved glob a) (target_images_resolved glob a)
      (base_bands_resolved glob a) (target_bands_resolved glob a)).map
    fun x => correlate_func (batch_namespace a x.1 x.2.1 x.2.2.1 x.2.2.2)

/-- The all-pairs loop body of `batch_correlate_func`
(cosicorr.py lines 176-193): one `correlate_func` call per element of
`itertools.product(zip(base_images, base_bands), zip(target_images,
target_bands))`, outer iterable first. -/
def all_pairs_calls (glob : String → List String) (a : BatchCorrelateArgs) : List CorrelateCall :=
  ((base_images_resolved glob a).zip (base_bands_resolved glob a)).flatMap
    fun bp => ((target_images_resolved glob a).zip (target_bands_resolved glob a)).map
      fun tp => correlate_func (batch_namespace a bp.1 tp.1 bp.2 tp.2)

/-- `batch_correlate_func` (cosicorr.py lines 130-193).  The result is
the list of engine invocations performed, paired with the `ValueError`
raised, if any (`none` when the call returns normally). -/
def batch_correlate_func (glob : String → List String) (a : BatchCorrelateArgs) :
    List CorrelateCall × Option CliError :=
  let base_images := base_images_resolved glob a
  let target_images := target_images_resolved glob a
  let all := if ¬a.serial ∧ ¬a.all then true else a.all
  if a.serial then
    if base_images.length ≠ target_images.length then
      ([], some (CliError.serialLengthMismatch base_images.length target_images.length))
    else
      (serial_calls glob a, none)
  else if all then
    (all_pairs_calls glob a, none)
  else
    ([], none)

/-- `os.path.basename`: the component after the last path separator. -/
def os_path_basename (p : String) : String :=
  (py_split p '/').getLastD ""

/-- The root part of `os.path.splitext`: the name with its last
extension removed; dots that merely lead the name do not start an
extension. -/
def os_path_splitext_root (p : String) : String :=
  let leading := (p.data.takeWhile (fun c => c = '.')).length
  let rest := String.mk (p.data.drop leading)
  let parts := py_split rest '.'
  if parts.length ≤ 1 then p
  else String.mk (p.data.take leading) ++ join_with "." parts.dropLast

/-- Whether a string starts with (resp. ends with) the given
character. -/
def starts_with_char (c : Char) (s : String) : Bool :=
  match s.data with
  | [] => false
  | d :: _ => d = c

/-- See `starts_with_char`. -/
def ends_with_char (c : Char) (s : String) : Bool :=
  match s.data.getLast? with
  | some d => d = c
  | none => false

/-- `os.path.join` for two components: the second wins when absolute,
otherwise a separator is inserted unless already present. -/
def os_path_join (a b : String) : String :=
  if starts_with_char '/' b then b
  else if a = "" ∨ ends_with_char '/' a then a ++ b
  else a ++ "/" ++ b

/-- The `argparse.Namespace` consumed by `multiband_correlate_func`. -/
structure MultibandArgs where
  input_img : String
  band_combination : Option String
  output_path : String
  method : CorrMethod
  window_size : List Int
  step : List Int
  grid : Bool
  show_flag : Bool
  pixel_based : Bool
  vmin : ℚ
  vmax : ℚ
  mask_th : ℚ
  nb_iters : Int
  search_range : Option (List Int)
deriving DecidableEq, Repr

/-- The external collaborators of `multiband_correlate_func`: the band
count reported by `cRasterInfo` for the input raster, `os.getcwd()`,
and `os.path.isdir`. -/
structure MultibandEnv where
  band_number : Nat
  cwd : String
  isdir : String → Bool

/-- Parsing of an explicit `--band_combination` string
(cosicorr.py line 211): split on `;`, then each combination on `,`,
converting each entry with `int(...)`; `none` models the `ValueError`
that `int` raises on a malformed entry. -/
def parse_band_combination (s : String) : Option (List (List Int)) :=
  (py_split s ';').mapM fun comb => (py_split comb ',').mapM fun x => x.toInt?

/-- The default band combinations
`[(i, j) for i in range(1, n+1) for j in range(i+1, n+1)]`
(cosicorr.py line 213), for an `n`-band image. -/
def default_band_combinations (n : Nat) : List (List Int) :=
  (List.range' 1 n).flatMap fun i =>
    (List.range' (i + 1) (n - i)).map fun (j : Nat) => [(i : Int), (j : Int)]

/-- The output file name of one multiband correlation
(cosicorr.py line 219). -/
def multiband_output_filename (name : String) (base_band target_band : Int) : String :=
  s!"corr_{name}_bands_{base_band}_{target_band}.tif"

/-- One engine invocation of the multiband loop body
(cosicorr.py lines 217-240), for the resolved output path. -/
def multiband_call (a : MultibandArgs) (output_path : String)
    (base_band target_band : Int) : CorrelateCall :=
  correlate_func
    { base_image := a.input_img
      target_image := a.input_img
      base_band := base_band
      target_band := target_band
      output_path := output_path
      method := a.method
      window_size := a.window_size
      step := a.step
      grid := a.grid
      show_flag := a.show_flag
      pixel_based := a.pixel_based
      vmin := a.vmin
      vmax := a.vmax
      mask_th := a.mask_th
      nb_iters := a.nb_iters
      search_range := a.search_range }

/-- The `for base_band, target_band in band_combinations:` loop of
`multiband_correlate_func` (cosicorr.py lines 217-240): per iteration,
unpack the combination, resolve the output path (raising when the
given path is a non-directory), and invoke the engine.  Returns the
invocations performed before any raise, and the raise, if one. -/
def run_band_combinations (env : MultibandEnv) (a : MultibandArgs) (name : String) :
    List (List Int) → List CorrelateCall × Option CliError
  | [] => ([], none)
  | comb :: rest =>
    match comb with
    | [base_band, target_band] =>
      if a.output_path = "" ∨ env.isdir a.output_path then
        let output_filename := multiband_output_filename name base_band target_band
        let output_path :=
          os_path_join (if a.output_path ≠ "" then a.output_path else env.cwd) output_filename
        let call := multiband_call a output_path base_band target_band
        let res := run_band_combinations env a name rest
        (call :: res.1, res.2)
      else
        ([], some (CliError.outputPathNotDirectory a.output_path))
    | _ => ([], some (CliError.unpackMismatch comb.length))

/-- The band combinations used by `multiband_correlate_func`
(cosicorr.py lines 210-213): the parse of a truthy `--band_combination`
argument, the default combinations otherwise. -/
def multiband_band_combinations (num_bands : Nat) (band_combination : Option String) :
    Option (List (List Int)) :=
  match band_combination with
  | some s => if s ≠ "" then parse_band_combination s
              else some (default_band_combinations num_bands)
  | none => some (default_band_combinations num_bands)

/-- `multiband_correlate_func` (cosicorr.py lines 196-240).  The result
is the list of engine invocations performed, paired with the
`ValueError` raised, if any. -/
def multiband_correlate_func (env : MultibandEnv) (a : MultibandArgs) :
    List CorrelateCall × Option CliError :=
  if env.band_number < 2 then
    ([], some (CliError.tooFewBands env.band_number))
  else
    match multiband_band_combinations env.band_number a.band_combination with
    | none => ([], some CliError.intParseError)
    | some band_combinations =>
        run_band_combinations env a (os_path_splitext_root (os_path_basename a.input_img))
          band_combinations

/-- Argparse default resolution of `--output_path` for the `correlate`
subparser (cosicorr.py line 306): `default=C.SOFTWARE.WKDIR`, the
software working directory, a constant defined outside this repository
and abstracted as `wkdir`. -/
def correlate_parser_output_path (wkdir : String) (given : Option String) : String :=
  given.getD wkdir

/-- Argparse default resolution of `--output_path` for the
`batch_correlate` subparser (cosicorr.py lines 343-344):
`default=C.SOFTWARE.WKDIR`. -/
def batch_correlate_parser_output_path (wkdir : String) (given : Option String) : String :=
  given.getD wkdir

/-- Grid mode of the sampling grid. -/
inductive GridMode
  | regular
  | pixelWise
deriving DecidableEq, Repr

/-- Modelled from the spec: the grid-mode resolution inside the
correlation engine (`geoCosiCorr3D.geoImageCorrelation.correlate.
Correlate`, not under `src/`): if the `pixel_based` option is set,
grid_mode is forced to pixel-wise regardless of step/grid flags;
otherwise it is derived from the step and grid parameters by the
engine's own rule, abstracted here as `fallback`. -/
def engine_grid_mode (fallback : List Int → Bool → GridMode) (pixel_based : Bool)
    (step : List Int) (grid : Bool) : GridMode :=
  if pixel_based then GridMode.pixelWise else fallback step grid

/-- Modelled from the spec: a Correlation Result Cell — sub-pixel
displacement components and a quality metric, or the sentinel
"invalid" value. -/
inductive Cell
  | valid (dx dy score : ℚ)
  | invalid
deriving DecidableEq, Repr

/-- Modelled from the spec: the per-call orchestration of the
Correlation Engine (`Correlate`, not under `src/`): it builds the
Sampling Grid once — an ordered sequence of centers, each marked valid
or invalid by the window-fitting invariant — then for each center
independently invokes the selected correlator; invalid or out-of-bounds
cells are written as the sentinel and do not abort the run. -/
def correlation_engine (grid : List ((Nat × Nat) × Bool))
    (correlator : Nat × Nat → Cell) : List Cell :=
  grid.map fun c => if c.2 then correlator c.1 else Cell.invalid

/-! ## Helper lemmas -/

lemma foldl_append_eq_flatten {α β : Type} (f : α → List β) :
    ∀ (l : List α) (acc : List β),
      l.foldl (fun acc p => acc ++ f p) acc = acc ++ (l.map f).flatten := by
  intro l
  induction l with
  | nil => intro acc; simp
  | cons x xs ih => intro acc; simp [ih]

lemma zip4_length {α β γ δ : Type} :
    ∀ (as : List α) (bs : List β) (cs : List γ) (ds : List δ),
      (zip4 as bs cs ds).length = min (min (min as.length bs.length) cs.length) ds.length := by
  intro as
  induction as with
  | nil => intro bs cs ds; simp [zip4]
  | cons a as ih =>
    intro bs cs ds
    cases bs with
    | nil => simp [zip4]
    | cons b bs =>
      cases cs with
      | nil => simp [zip4]
      | cons c cs =>
        cases ds with
        | nil => simp [zip4]
        | cons d ds => simp [zip4, ih]; omega

lemma zip4_map_fst_pair {α β γ δ : Type} :
    ∀ (as : List α) (bs : List β) (cs : List γ) (ds : List δ),
      as.length = bs.length → as.length ≤ cs.length → bs.length ≤ ds.length →
      (zip4 as bs cs ds).map (fun x => (x.1, x.2.1)) = as.zip bs := by
  intro as
  induction as with
  | nil =>
    intro bs cs ds h _ _
    cases bs with
    | nil => simp [zip4]
    | cons b bs => simp at h
  | cons a as ih =>
    intro bs cs ds h hc hd
    cases bs with
    | nil => simp at h
    | cons b bs =>
      cases cs with
      | nil => simp at hc
      | cons c cs =>
        cases ds with
        | nil => simp at hd
        | cons d ds =>
          simp only [zip4, List.map_cons, List.zip_cons_cons, List.cons.injEq, true_and]
          exact ih bs cs ds (by simpa using h) (by simpa using hc) (by simpa using hd)

/-! ## Claim theorems -/

/-- C7: In batch correlation, the resolved base image list (and
likewise the target image list) equals the concatenation, in pattern
order, of the glob expansions of the comma-separated patterns given in
the `base_images` (resp. `target_images`) argument. -/
theorem batch_glob_concat (glob : String → List String) (a : BatchCorrelateArgs) :
    base_images_resolved glob a = ((py_split a.base_images ',').map glob).flatten ∧
    target_images_resolved glob a = ((py_split a.target_images ',').map glob).flatten := by
  constructor
  · simpa using foldl_append_eq_flatten glob (py_split a.base_images ',') []
  · simpa using foldl_append_eq_flatten glob (py_split a.target_images ',') []

/-- C2: The correlator configuration handed to the correlation engine
contains exactly the per-method parameter set: for the frequency method
it holds window_size, step, grid, mask_th and nb_iters (and no
search_range); for the spatial method it holds window_size, step, grid
and search_range (and no mask_th or nb_iters). -/
theorem correlator_config_keys (a : CorrelateArgs) :
    (a.method = CorrMethod.frequency →
      (correlate_func a).corr_config.correlator_params.map Prod.fst =
          ["window_size", "step", "grid", "mask_th", "nb_iters"] ∧
        "search_range" ∉ (correlate_func a).corr_config.correlator_params.map Prod.fst) ∧
    (a.method = CorrMethod.spatial →
      (correlate_func a).corr_config.correlator_params.map Prod.fst =
          ["window_size", "step", "grid", "search_range"] ∧
        "mask_th" ∉ (correlate_func a).corr_config.correlator_params.map Prod.fst ∧
        "nb_iters" ∉ (correlate_func a).corr_config.correlator_params.map Prod.fst) := by
  obtain ⟨bi, ti, bb, tb, op, m, ws, st, gr, sf, pb, vn, vx, mt, ni, sr⟩ := a
  cases m with
  | frequency =>
    refine ⟨fun _ => ⟨rfl, ?_⟩, fun h => CorrMethod.noConfusion h⟩
    show "search_range" ∉ ["window_size", "step", "grid", "mask_th", "nb_iters"]
    decide
  | spatial =>
    refine ⟨fun h => CorrMethod.noConfusion h, fun _ => ⟨rfl, ?_, ?_⟩⟩
    · show "mask_th" ∉ ["window_size", "step", "grid", "search_range"]
      decide
    · show "nb_iters" ∉ ["window_size", "step", "grid", "search_range"]
      decide

/-- Witness for C2 at a concrete invocation. -/
theorem correlator_config_keys_witness :
    ((correlate_func
        { base_image := "b.tif", target_image := "t.tif", base_band := 1, target_band := 1,
          output_path := "o.tif", method := CorrMethod.frequency,
          window_size := [64, 64, 64, 64], step := [8, 8], grid := false, show_flag := false,
          pixel_based := false, vmin := -1, vmax := 1, mask_th := 0, nb_iters := 4,
          search_range := none }).corr_config.correlator_params.map Prod.fst =
      ["window_size", "step", "grid", "mask_th", "nb_iters"]) ∧
    ((correlate_func
        { base_image := "b.tif", target_image := "t.tif", base_band := 1, target_band := 1,
          output_path := "o.tif", method := CorrMethod.spatial,
          window_size := [64, 64, 64, 64], step := [8, 8], grid := false, show_flag := false,
          pixel_based := false, vmin := -1, vmax := 1, mask_th := 0, nb_iters := 4,
          search_range := some [10, 10] }).corr_config.correlator_params.map Prod.fst =
      ["window_size", "step", "grid", "search_range"]) :=
  ⟨((correlator_config_keys _).1 rfl).1, ((correlator_config_keys _).2 rfl).1⟩

/-- C3: For every correlate invocation with the pixel_based option set,
the grid mode used by the resulting correlation call is pixel-wise,
regardless of the step values and the grid flag supplied alongside it
(engine-side behaviour modelled from the spec as `engine_grid_mode`). -/
theorem pixel_based_forces_pixelwise (fallback : List Int → Bool → GridMode)
    (a : CorrelateArgs) (h : a.pixel_based = true) :
    engine_grid_mode fallback (correlate_func a).pixel_based_correlation a.step a.grid =
      GridMode.pixelWise := by
  have hp : (correlate_func a).pixel_based_correlation = a.pixel_based := rfl
  simp [engine_grid_mode, hp, h]

/-- Witness for C3: a concrete invocation with `pixel_based` set, a
non-trivial step, the grid flag set, and a fallback that never answers
pixel-wise. -/
theorem pixel_based_forces_pixelwise_witness :
    engine_grid_mode (fun _ _ => GridMode.regular)
      (correlate_func
        { base_image := "b.tif", target_image := "t.tif", base_band := 1, target_band := 1,
          output_path := "o.tif", method := CorrMethod.frequency,
          window_size := [64, 64, 64, 64], step := [8, 8], grid := true, show_flag := false,
          pixel_based := true, vmin := -1, vmax := 1, mask_th := 0, nb_iters := 4,
          search_range := none }).pixel_based_correlation [8, 8] true = GridMode.pixelWise :=
  pixel_based_forces_pixelwise (fun _ _ => GridMode.regular) _ rfl

/-- C9: If neither the serial nor the all flag is passed to
batch_correlate, all-pairs mode is used; if both flags are passed,
serial mode takes precedence, so the call behaves exactly as the serial
branch (length check included) and all-pairs pairing is never
executed. -/
theorem batch_mode_selection (glob : String → List String) (a : BatchCorrelateArgs) :
    (a.serial = false → a.all = false →
      batch_correlate_func glob a = (all_pairs_calls glob a, none)) ∧
    (a.serial = true → a.all = true →
      batch_correlate_func glob a =
        if (base_images_resolved glob a).length ≠ (target_images_resolved glob a).length then
          ([], some (CliError.serialLengthMismatch (base_images_resolved glob a).length
            (target_images_resolved glob a).length))
        else (serial_calls glob a, none)) := by
  constructor
  · intro h1 h2
    simp [batch_correlate_func, h1, h2]
  · intro h1 _
    simp [batch_correlate_func, h1]

/-- Glob environment for the C9 witness: one base image, one target
image. -/
def mode_witness_glob : String → List String := fun p =>
  if p = "x*" then ["x1.tif"] else if p = "y*" then ["y1.tif"] else []

/-- Arguments for the C9 witness. -/
def mode_witness_args : BatchCorrelateArgs :=
  { base_images := "x*", target_images := "y*", serial := false, all := false,
    base_bands := none, target_bands := none, output_path := "out",
    method := CorrMethod.frequency, window_size := [64, 64, 64, 64], step := [8, 8],
    grid := false, show_flag := false, pixel_based := false,
    vmin := -1, vmax := 1, mask_th := 0, nb_iters := 4, search_range := none }

/-- Witness for C9: with neither flag the all-pairs calls are made;
with both flags the serial calls are made. -/
theorem batch_mode_selection_witness :
    batch_correlate_func mode_witness_glob mode_witness_args =
      (all_pairs_calls mode_witness_glob mode_witness_args, none) ∧
    batch_correlate_func mode_witness_glob
        { mode_witness_args with serial := true, all := true } =
      (serial_calls mode_witness_glob
        { mode_witness_args with serial := true, all := true }, none) := by
  constructor
  · exact (batch_mode_selection mode_witness_glob mode_witness_args).1 rfl rfl
  · have h := (batch_mode_selection mode_witness_glob
      { mode_witness_args with serial := true, all := true }).2 rfl rfl
    rw [h, if_neg (by decide)]

/-- C10: In serial batch mode, the number of correlations actually
executed equals the minimum of the lengths of the base image list,
target image list, base band list, and target band list (Python's
`zip` truncation). -/
theorem serial_count_min (glob : String → List String) (a : BatchCorrelateArgs)
    (hs : a.serial = true)
    (he : (base_images_resolved glob a).length = (target_images_resolved glob a).length) :
    (batch_correlate_func glob a).2 = none ∧
    (batch_correlate_func glob a).1.length =
      min (min (min (base_images_resolved glob a).length (target_images_resolved glob a).length)
        (base_bands_resolved glob a).length) (target_bands_resolved glob a).length := by
  have hb : batch_correlate_func glob a = (serial_calls glob a, none) := by
    simp [batch_correlate_func, hs, he]
  rw [hb]
  exact ⟨rfl, by simp [serial_calls, zip4_length]⟩

/-- Glob environment for the C10 witness: three images per pattern. -/
def trunc_witness_glob : String → List String := fun p =>
  if p = "img*" then ["i1.tif", "i2.tif", "i3.tif"] else []

/-- Arguments for the C10 witness: equal-length image lists (3), but an
explicit base band list of length 2. -/
def trunc_witness_args : BatchCorrelateArgs :=
  { base_images := "img*", target_images := "img*", serial := true, all := false,
    base_bands := some [1, 2], target_bands := none, output_path := "out",
    method := CorrMethod.frequency, window_size := [64, 64, 64, 64], step := [8, 8],
    grid := false, show_flag := false, pixel_based := false,
    vmin := -1, vmax := 1, mask_th := 0, nb_iters := 4, search_range := none }

/-- Witness for C10: three image pairs but a two-element band list run
only two correlations. -/
theorem serial_count_min_witness :
    (batch_correlate_func trunc_witness_glob trunc_witness_args).2 = none ∧
    (batch_correlate_func trunc_witness_glob trunc_witness_args).1.length = 2 := by
  have h := serial_count_min trunc_witness_glob trunc_witness_args rfl (by decide)
  exact ⟨h.1, h.2.trans (by decide)⟩

lemma default_band_combinations_cons (k : Nat) :
    ∃ rest, default_band_combinations (k + 2) = [(1 : Int), 2] :: rest := by
  have h1 : List.range' 1 (k + 2) = 1 :: List.range' 2 (k + 1) := List.range'_succ 1 (k + 1) 1
  have h2 : List.range' 2 (k + 1) = 2 :: List.range' 3 k := List.range'_succ 2 k 1
  unfold default_band_combinations
  rw [h1, List.flatMap_cons]
  rw [show (k + 2) - 1 = k + 1 from rfl, h2]
  simp only [List.map_cons, List.cons_append, Nat.cast_one, Nat.cast_ofNat]
  exact ⟨_, rfl⟩

/-- C4: Call-level failures abort before any correlation output is
produced and identify the violated constraint: in serial batch mode,
unequal base/target image list lengths raise a ValueError naming both
counts before any correlation is invoked; in multiband mode, an input
image with fewer than two bands, or an existing non-directory output
path, raises a ValueError stating the constraint before any
correlation is invoked (the performed-invocation list is empty in each
case). -/
theorem call_level_failures_abort :
    (∀ (glob : String → List String) (a : BatchCorrelateArgs), a.serial = true →
      (base_images_resolved glob a).length ≠ (target_images_resolved glob a).length →
      batch_correlate_func glob a =
        ([], some (CliError.serialLengthMismatch (base_images_resolved glob a).length
          (target_images_resolved glob a).length))) ∧
    (∀ (env : MultibandEnv) (m : MultibandArgs), env.band_number < 2 →
      multiband_correlate_func env m = ([], some (CliError.tooFewBands env.band_number))) ∧
    (∀ (env : MultibandEnv) (m : MultibandArgs), 2 ≤ env.band_number →
      m.band_combination = none → m.output_path ≠ "" → env.isdir m.output_path = false →
      multiband_correlate_func env m =
        ([], some (CliError.outputPathNotDirectory m.output_path))) := by
  refine ⟨fun glob a hs hne => ?_, fun env m h => ?_, fun env m h2 hbc ho hd => ?_⟩
  · simp [batch_correlate_func, hs, hne]
  · simp [multiband_correlate_func, h]
  · obtain ⟨k, hk⟩ : ∃ k, env.band_number = k + 2 := ⟨env.band_number - 2, by omega⟩
    obtain ⟨rest, hr⟩ := default_band_combinations_cons k
    simp only [multiband_correlate_func, hbc, hk, multiband_band_combinations]
    rw [if_neg (by omega)]
    rw [hr]
    simp [run_band_combinations, ho, hd]

/-- Witness inputs for C4: a glob giving one base image and no target
images. -/
def abort_witness_glob : String → List String := fun p =>
  if p = "a*" then ["a1.tif"] else []

/-- Batch arguments for the C4 witness (serial, mismatched lengths). -/
def abort_witness_batch_args : BatchCorrelateArgs :=
  { base_images := "a*", target_images := "zzz", serial := true, all := false,
    base_bands := none, target_bands := none, output_path := "out",
    method := CorrMethod.frequency, window_size := [64, 64, 64, 64], step := [8, 8],
    grid := false, show_flag := false, pixel_based := false,
    vmin := -1, vmax := 1, mask_th := 0, nb_iters := 4, search_range := none }

/-- Multiband arguments for the C4 witness. -/
def abort_witness_multiband_args : MultibandArgs :=
  { input_img := "/data/image.tif", band_combination := none, output_path := "/not_a_dir",
    method := CorrMethod.frequency, window_size := [64, 64, 64, 64], step := [8, 8],
    grid := false, show_flag := false, pixel_based := false,
    vmin := -1, vmax := 1, mask_th := 0, nb_iters := 4, search_range := none }

/-- Witness for C4: each failure mode at a concrete input, with zero
correlations performed. -/
theorem call_level_failures_abort_witness :
    batch_correlate_func abort_witness_glob abort_witness_batch_args =
      ([], some (CliError.serialLengthMismatch 1 0)) ∧
    multiband_correlate_func { band_number := 1, cwd := "/cwd", isdir := fun _ => false }
        abort_witness_multiband_args = ([], some (CliError.tooFewBands 1)) ∧
    multiband_correlate_func { band_number := 2, cwd := "/cwd", isdir := fun _ => false }
        abort_witness_multiband_args =
      ([], some (CliError.outputPathNotDirectory "/not_a_dir")) := by
  refine ⟨?_, ?_, ?_⟩
  · exact (call_level_failures_abort.1 abort_witness_glob abort_witness_batch_args rfl
      (by decide)).trans (by decide)
  · exact call_level_failures_abort.2.1 _ abort_witness_multiband_args (by decide)
  · exact call_level_failures_abort.2.2 _ abort_witness_multiband_args (by decide) rfl
      (by decide) rfl

/-- Glob environment for the C1 counterexample: pattern `a*` expands to
two base images, pattern `b*` to one target image. -/
def count_cx_glob : String → List String := fun p =>
  if p = "a*" then ["a1.tif", "a2.tif"] else if p = "b*" then ["b1.tif"] else []

/-- Arguments for the C1 counterexample: all-pairs mode with an
explicit one-element base band list next to two base images. -/
def count_cx_args : BatchCorrelateArgs :=
  { base_images := "a*", target_images := "b*", serial := false, all := true,
    base_bands := some [1], target_bands := none, output_path := "out",
    method := CorrMethod.frequency, window_size := [64, 64, 64, 64], step := [8, 8],
    grid := false, show_flag := false, pixel_based := false,
    vmin := -1, vmax := 1, mask_th := 0, nb_iters := 4, search_range := none }

/-- C1 counterexample: in all-pairs mode with two resolved base images
and one resolved target image, but an explicit one-element base band
list, the call completes normally yet performs a single engine
invocation — not `len(base_images) * len(target_images) = 2` — because
the code zips each image list with its band list (truncating) before
taking the Cartesian product. -/
theorem batch_all_pairs_count_counterexample :
    count_cx_args.serial = false ∧ count_cx_args.all = true ∧
    (batch_correlate_func count_cx_glob count_cx_args).2 = none ∧
    (base_images_resolved count_cx_glob count_cx_args).length = 2 ∧
    (target_images_resolved count_cx_glob count_cx_args).length = 1 ∧
    (batch_correlate_func count_cx_glob count_cx_args).1.length = 1 ∧
    (batch_correlate_func count_cx_glob count_cx_args).1.length ≠
      (base_images_resolved count_cx_glob count_cx_args).length *
        (target_images_resolved count_cx_glob count_cx_args).length := by
  decide

lemma all_pairs_calls_pairs (glob : String → List String) (a : BatchCorrelateArgs)
    (hb : (base_images_resolved glob a).length ≤ (base_bands_resolved glob a).length)
    (ht : (target_images_resolved glob a).length ≤ (target_bands_resolved glob a).length) :
    (all_pairs_calls glob a).map (fun c => (c.base_image_path, c.target_image_path)) =
      (base_images_resolved glob a).flatMap fun b =>
        (target_images_resolved glob a).map fun t => (b, t) := by
  unfold all_pairs_calls
  rw [List.map_flatMap]
  have hinner : ∀ bp : String × Int,
      (((target_images_resolved glob a).zip (target_bands_resolved glob a)).map
          fun tp => correlate_func (batch_namespace a bp.1 tp.1 bp.2 tp.2)).map
        (fun c => (c.base_image_path, c.target_image_path)) =
      (target_images_resolved glob a).map fun t => (bp.1, t) := by
    intro bp
    rw [List.map_map]
    rw [show ((fun c : CorrelateCall => (c.base_image_path, c.target_image_path)) ∘
        fun tp : String × Int => correlate_func (batch_namespace a bp.1 tp.1 bp.2 tp.2)) =
        ((fun t => (bp.1, t)) ∘ Prod.fst) from rfl]
    rw [← List.map_map, List.map_fst_zip _ _ ht]
  simp only [hinner]
  conv_rhs => rw [← List.map_fst_zip (base_images_resolved glob a)
    (base_bands_resolved glob a) hb, List.flatMap_map]

/-- C1 amended: whenever each resolved band list is at least as long as
its resolved image list (in particular whenever the band arguments are
omitted, since the defaults replicate to the image-list lengths), the
correlation engine is called exactly once per resolved image pair: in
serial mode (given the checked length equality) the calls are the
index-aligned pairs, in order; otherwise the calls are the Cartesian
product of the resolved base and target image lists, in order. -/
theorem batch_call_pairs_amended (glob : String → List String) (a : BatchCorrelateArgs)
    (hb : (base_images_resolved glob a).length ≤ (base_bands_resolved glob a).length)
    (ht : (target_images_resolved glob a).length ≤ (target_bands_resolved glob a).length) :
    (a.serial = true →
      (base_images_resolved glob a).length = (target_images_resolved glob a).length →
      (batch_correlate_func glob a).1.map (fun c => (c.base_image_path, c.target_image_path)) =
        (base_images_resolved glob a).zip (target_images_resolved glob a)) ∧
    (a.serial = false →
      (batch_correlate_func glob a).1.map (fun c => (c.base_image_path, c.target_image_path)) =
        (base_images_resolved glob a).flatMap fun b =>
          (target_images_resolved glob a).map fun t => (b, t)) := by
  constructor
  · intro hs he
    have hbr : batch_correlate_func glob a = (serial_calls glob a, none) := by
      simp [batch_correlate_func, hs, he]
    rw [hbr]
    unfold serial_calls
    rw [List.map_map]
    rw [show ((fun c : CorrelateCall => (c.base_image_path, c.target_image_path)) ∘
        fun x : String × String × Int × Int =>
          correlate_func (batch_namespace a x.1 x.2.1 x.2.2.1 x.2.2.2)) =
        (fun x : String × String × Int × Int => (x.1, x.2.1)) from rfl]
    exact zip4_map_fst_pair _ _ _ _ he hb (he ▸ ht)
  · intro hs
    have hbr : batch_correlate_func glob a = (all_pairs_calls glob a, none) := by
      cases hall : a.all <;> simp [batch_correlate_func, hs, hall]
    rw [hbr]
    exact all_pairs_calls_pairs glob a hb ht

/-- Glob environment for the C1 amended witness: two base and two
target images. -/
def pairs_witness_glob : String → List String := fun p =>
  if p = "a*" then ["a1.tif", "a2.tif"] else if p = "b*" then ["b1.tif", "b2.tif"] else []

/-- Arguments for the C1 amended witness (default band lists). -/
def pairs_witness_args : BatchCorrelateArgs :=
  { base_images := "a*", target_images := "b*", serial := true, all := false,
    base_bands := none, target_bands := none, output_path := "out",
    method := CorrMethod.frequency, window_size := [64, 64, 64, 64], step := [8, 8],
    grid := false, show_flag := false, pixel_based := false,
    vmin := -1, vmax := 1, mask_th := 0, nb_iters := 4, search_range := none }

/-- Witness for the amended C1: with default band lists, serial mode
pairs images index-aligned and all-pairs mode takes the full Cartesian
product. -/
theorem batch_call_pairs_amended_witness :
    (batch_correlate_func pairs_witness_glob pairs_witness_args).1.map
        (fun c => (c.base_image_path, c.target_image_path)) =
      [("a1.tif", "b1.tif"), ("a2.tif", "b2.tif")] ∧
    (batch_correlate_func pairs_witness_glob { pairs_witness_args with serial := false }).1.map
        (fun c => (c.base_image_path, c.target_image_path)) =
      [("a1.tif", "b1.tif"), ("a1.tif", "b2.tif"), ("a2.tif", "b1.tif"),
        ("a2.tif", "b2.tif")] := by
  constructor
  · exact ((batch_call_pairs_amended pairs_witness_glob pairs_witness_args (by decide)
      (by decide)).1 rfl (by decide)).trans (by decide)
  · exact ((batch_call_pairs_amended pairs_witness_glob
      { pairs_witness_args with serial := false } (by decide) (by decide)).2 rfl).trans
      (by decide)

/-- C5: For every input, the Displacement Field produced by a
correlation call has exactly the shape of the Sampling Grid: one cell
per grid center, with invalid centers holding the sentinel value
rather than being dropped (engine behaviour modelled from the spec as
`correlation_engine`). -/
theorem displacement_field_shape (grid : List ((Nat × Nat) × Bool))
    (correlator : Nat × Nat → Cell) :
    (correlation_engine grid correlator).length = grid.length ∧
    ∀ (k : Nat) (c : (Nat × Nat) × Bool), grid[k]? = some c → c.2 = false →
      (correlation_engine grid correlator)[k]? = some Cell.invalid := by
  constructor
  · simp [correlation_engine]
  · intro k c hk hc
    rw [correlation_engine, List.getElem?_map, hk]
    simp [hc]

/-- Witness for C5: a two-center grid whose second center is invalid
keeps its slot as the sentinel, and the field length equals the grid
length. -/
theorem displacement_field_shape_witness :
    (correlation_engine [((32, 32), true), ((32, 40), false)]
      (fun _ => Cell.valid 0 0 1)).length = 2 ∧
    (correlation_engine [((32, 32), true), ((32, 40), false)]
      (fun _ => Cell.valid 0 0 1))[1]? = some Cell.invalid :=
  ⟨(displacement_field_shape [((32, 32), true), ((32, 40), false)]
      (fun _ => Cell.valid 0 0 1)).1,
   (displacement_field_shape [((32, 32), true), ((32, 40), false)]
      (fun _ => Cell.valid 0 0 1)).2 1 ((32, 40), false) rfl rfl⟩

lemma run_band_combinations_output_path (env : MultibandEnv) (a : MultibandArgs)
    (name : String) :
    ∀ (combs : List (List Int)), ∀ c ∈ (run_band_combinations env a name combs).1,
      c.output_corr_path =
        os_path_join (if a.output_path ≠ "" then a.output_path else env.cwd)
          (multiband_output_filename name c.base_band c.target_band) := by
  intro combs
  induction combs with
  | nil => intro c hc; simp [run_band_combinations] at hc
  | cons comb rest ih =>
    intro c hc
    rcases comb with _ | ⟨bb, _ | ⟨tb, _ | ⟨x, xs⟩⟩⟩
    · simp [run_band_combinations] at hc
    · simp [run_band_combinations] at hc
    · by_cases hok : a.output_path = "" ∨ env.isdir a.output_path = true
      · simp only [run_band_combinations, if_pos hok, List.mem_cons] at hc
        rcases hc with rfl | hc
        · rfl
        · exact ih c hc
      · simp [run_band_combinations, if_neg hok] at hc
    · simp [run_band_combinations] at hc

lemma batch_calls_output_path (glob : String → List String) (b : BatchCorrelateArgs) :
    ∀ c ∈ (batch_correlate_func glob b).1, c.output_corr_path = b.output_path := by
  have hser : ∀ c ∈ serial_calls glob b, c.output_corr_path = b.output_path := by
    intro c hc
    obtain ⟨x, _, rfl⟩ := List.mem_map.mp hc
    rfl
  have hallp : ∀ c ∈ all_pairs_calls glob b, c.output_corr_path = b.output_path := by
    intro c hc
    obtain ⟨bp, _, hc2⟩ := List.mem_flatMap.mp hc
    obtain ⟨tp, _, rfl⟩ := List.mem_map.mp hc2
    rfl
  intro c hc
  cases hss : b.serial with
  | true =>
    by_cases he : (base_images_resolved glob b).length = (target_images_resolved glob b).length
    · have hb : batch_correlate_func glob b = (serial_calls glob b, none) := by
        simp [batch_correlate_func, hss, he]
      rw [hb] at hc
      exact hser c hc
    · have hb : batch_correlate_func glob b =
          ([], some (CliError.serialLengthMismatch (base_images_resolved glob b).length
            (target_images_resolved glob b).length)) := by
        simp [batch_correlate_func, hss, he]
      rw [hb] at hc
      simp at hc
  | false =>
    have hb : batch_correlate_func glob b = (all_pairs_calls glob b, none) := by
      cases hall : b.all <;> simp [batch_correlate_func, hss, hall]
    rw [hb] at hc
    exact hallp c hc

/-- C6: When no output path is given, correlate and batch_correlate
default the output correlation path to the software working directory
(`C.SOFTWARE.WKDIR`, abstracted as `wkdir`), and multiband correlation
resolves each pair's output path inside the given directory (or the
current working directory when none is given) under the name
`corr_<image>_bands_<base_band>_<target_band>.tif`. -/
theorem default_output_path_resolution (wkdir : String) (glob : String → List String)
    (a : CorrelateArgs) (b : BatchCorrelateArgs) (env : MultibandEnv) (m : MultibandArgs) :
    (a.output_path = correlate_parser_output_path wkdir none →
      (correlate_func a).output_corr_path = wkdir) ∧
    (b.output_path = batch_correlate_parser_output_path wkdir none →
      ∀ c ∈ (batch_correlate_func glob b).1, c.output_corr_path = wkdir) ∧
    (∀ c ∈ (multiband_correlate_func env m).1,
      c.output_corr_path =
        os_path_join (if m.output_path ≠ "" then m.output_path else env.cwd)
          (multiband_output_filename (os_path_splitext_root (os_path_basename m.input_img))
            c.base_band c.target_band)) := by
  refine ⟨fun h => ?_, fun h c hc => ?_, fun c hc => ?_⟩
  · rw [show (correlate_func a).output_corr_path = a.output_path from rfl, h]
    rfl
  · rw [batch_calls_output_path glob b c hc, h]
    rfl
  · unfold multiband_correlate_func at hc
    by_cases hlt : env.band_number < 2
    · rw [if_pos hlt] at hc
      simp at hc
    · rw [if_neg hlt] at hc
      rcases hopt : multiband_band_combinations env.band_number m.band_combination with _ | cs
      · rw [hopt] at hc
        simp at hc
      · rw [hopt] at hc
        exact run_band_combinations_output_path env m _ cs c hc

/-- A throwaway engine-call record used only as the default of
`List.headD` in witness statements. -/
def dummy_call : CorrelateCall :=
  correlate_func
    { base_image := "", target_image := "", base_band := 1, target_band := 1,
      output_path := "", method := CorrMethod.frequency, window_size := [], step := [],
      grid := false, show_flag := false, pixel_based := false, vmin := 0, vmax := 0,
      mask_th := 0, nb_iters := 0, search_range := none }

/-- Batch arguments for the C6 witness: output path left at the parser
default for working directory `/wk`. -/
def out_witness_batch_args : BatchCorrelateArgs :=
  { base_images := "a*", target_images := "a*", serial := true, all := false,
    base_bands := none, target_bands := none,
    output_path := batch_correlate_parser_output_path "/wk" none,
    method := CorrMethod.frequency, window_size := [64, 64, 64, 64], step := [8, 8],
    grid := false, show_flag := false, pixel_based := false,
    vmin := -1, vmax := 1, mask_th := 0, nb_iters := 4, search_range := none }

/-- Multiband arguments for the C6 witness: a two-band image and an
existing output directory. -/
def out_witness_multiband_args : MultibandArgs :=
  { input_img := "/data/image.tif", band_combination := none, output_path := "/odir",
    method := CorrMethod.frequency, window_size := [64, 64, 64, 64], step := [8, 8],
    grid := false, show_flag := false, pixel_based := false,
    vmin := -1, vmax := 1, mask_th := 0, nb_iters := 4, search_range := none }

/-- Witness for C6 at concrete invocations. -/
theorem default_output_path_resolution_witness :
    (correlate_func
      { base_image := "b.tif", target_image := "t.tif", base_band := 1, target_band := 1,
        output_path := correlate_parser_output_path "/wk" none,
        method := CorrMethod.frequency, window_size := [64, 64, 64, 64], step := [8, 8],
        grid := false, show_flag := false, pixel_based := false, vmin := -1, vmax := 1,
        mask_th := 0, nb_iters := 4, search_range := none }).output_corr_path = "/wk" ∧
    ((batch_correlate_func abort_witness_glob out_witness_batch_args).1.headD
      dummy_call).output_corr_path = "/wk" ∧
    ((multiband_correlate_func { band_number := 2, cwd := "/cwd", isdir := fun p => p = "/odir" }
      out_witness_multiband_args).1.headD dummy_call).output_corr_path =
      "/odir/corr_image_bands_1_2.tif" := by
  have h := default_output_path_resolution "/wk" abort_witness_glob
    { base_image := "b.tif", target_image := "t.tif", base_band := 1, target_band := 1,
      output_path := correlate_parser_output_path "/wk" none,
      method := CorrMethod.frequency, window_size := [64, 64, 64, 64], step := [8, 8],
      grid := false, show_flag := false, pixel_based := false, vmin := -1, vmax := 1,
      mask_th := 0, nb_iters := 4, search_range := none }
    out_witness_batch_args { band_number := 2, cwd := "/cwd", isdir := fun p => p = "/odir" }
    out_witness_multiband_args
  refine ⟨h.1 rfl, h.2.1 rfl _ (by decide), (h.2.2 _ (by decide)).trans (by decide)⟩

/-- The default band combinations of an `n`-band image, as ordered
pairs. -/
def default_pairs (n : Nat) : List (Int × Int) :=
  (List.range' 1 n).flatMap fun i =>
    (List.range' (i + 1) (n - i)).map fun (j : Nat) => ((i : Int), (j : Int))

lemma default_band_combinations_eq (n : Nat) :
    default_band_combinations n = (default_pairs n).map fun p => [p.1, p.2] := by
  unfold default_band_combinations default_pairs
  rw [List.map_flatMap]
  simp only [List.map_map]
  rfl

lemma run_band_combinations_pairs (env : MultibandEnv) (a : MultibandArgs) (name : String)
    (hok : a.output_path = "" ∨ env.isdir a.output_path = true) :
    ∀ ps : List (Int × Int),
      run_band_combinations env a name (ps.map fun p => [p.1, p.2]) =
        ((ps.map fun p => multiband_call a
          (os_path_join (if a.output_path ≠ "" then a.output_path else env.cwd)
            (multiband_output_filename name p.1 p.2)) p.1 p.2), none) := by
  intro ps
  induction ps with
  | nil => rfl
  | cons p ps ih =>
    simp only [List.map_cons, run_band_combinations, if_pos hok, ih]

lemma sum_map_add_one (l : List Nat) (f g : Nat → Nat) (h : ∀ x ∈ l, f x = g x + 1) :
    (l.map f).sum = (l.map g).sum + l.length := by
  induction l with
  | nil => simp
  | cons x xs ih =>
    simp only [List.map_cons, List.sum_cons, List.length_cons]
    rw [h x (by simp), ih (fun y hy => h y (by simp [hy]))]
    omega

lemma range'_sub_sum (n : Nat) :
    (((List.range' 1 n).map fun i => n - i).sum) * 2 = n * (n - 1) := by
  induction n with
  | zero => rfl
  | succ m ih =>
    have hconcat : List.range' 1 (m + 1) = List.range' 1 m ++ [1 + m] := by
      exact List.range'_1_concat 1 m
    rw [hconcat, List.map_append, List.sum_append]
    simp only [List.map_cons, List.map_nil, List.sum_cons, List.sum_nil]
    have h0 : (m + 1) - (1 + m) = 0 := by omega
    rw [h0]
    have hpt : ((List.range' 1 m).map fun i => (m + 1) - i).sum
        = ((List.range' 1 m).map fun i => m - i).sum + m := by
      have hcongr := sum_map_add_one (List.range' 1 m) (fun i => (m + 1) - i) (fun i => m - i)
        (fun x hx => by
          have hx' := List.mem_range'_1.mp hx
          show m + 1 - x = m - x + 1
          omega)
      rw [hcongr]
      simp
    rw [hpt]
    have hid : (m + 1) * ((m + 1) - 1) = m * (m - 1) + 2 * m := by
      cases m with
      | zero => rfl
      | succ t =>
        simp only [Nat.add_sub_cancel]
        ring
    rw [hid]
    omega

lemma default_pairs_length (n : Nat) : (default_pairs n).length = n * (n - 1) / 2 := by
  have hlen : (default_pairs n).length = ((List.range' 1 n).map fun i => n - i).sum := by
    unfold default_pairs
    rw [List.length_flatMap]
    congr 1
    apply List.map_congr_left
    intro x hx
    simp
  rw [hlen]
  have h2 := range'_sub_sum n
  generalize n * (n - 1) = k at h2 ⊢
  omega

lemma mem_default_pairs (n : Nat) (i j : Int) :
    (i, j) ∈ default_pairs n ↔ 1 ≤ i ∧ i < j ∧ j ≤ (n : Int) := by
  unfold default_pairs
  rw [List.mem_flatMap]
  constructor
  · rintro ⟨a, ha, hm⟩
    rw [List.mem_map] at hm
    obtain ⟨b, hb, heq⟩ := hm
    have ha' := List.mem_range'_1.mp ha
    have hb' := List.mem_range'_1.mp hb
    rw [Prod.mk.injEq] at heq
    obtain ⟨hi, hj⟩ := heq
    subst hi
    subst hj
    refine ⟨?_, ?_, ?_⟩ <;> omega
  · rintro ⟨h1, h2, h3⟩
    refine ⟨i.toNat, List.mem_range'_1.mpr ⟨by omega, by omega⟩, ?_⟩
    rw [List.mem_map]
    refine ⟨j.toNat, List.mem_range'_1.mpr ⟨by omega, by omega⟩, ?_⟩
    rw [Prod.mk.injEq]
    constructor <;> omega

lemma default_pairs_nodup (n : Nat) : (default_pairs n).Nodup := by
  unfold default_pairs
  rw [List.nodup_flatMap]
  constructor
  · intro i _
    refine List.Nodup.map ?_ (List.nodup_range' (i + 1) (n - i))
    intro a b hab
    simpa using hab
  · have hnd : (List.range' 1 n).Nodup := List.nodup_range' 1 n
    refine hnd.imp ?_
    intro a b hab x hxa hxb
    rw [List.mem_map] at hxa hxb
    obtain ⟨ja, _, rfl⟩ := hxa
    obtain ⟨jb, _, heq⟩ := hxb
    rw [Prod.mk.injEq] at heq
    exact hab (by exact_mod_cast heq.1.symm)

/-- C8: When no band_combination argument is supplied, multiband
correlation on an image with n ≥ 2 bands runs exactly one correlation
for every ordered pair (i, j) with 1 ≤ i < j ≤ n — n(n-1)/2
correlations in total — each using band i of the image as base and
band j of the same image as target. -/
theorem multiband_default_combinations (env : MultibandEnv) (m : MultibandArgs)
    (h2 : 2 ≤ env.band_number) (hbc : m.band_combination = none)
    (hok : m.output_path = "" ∨ env.isdir m.output_path = true) :
    (multiband_correlate_func env m).2 = none ∧
    (multiband_correlate_func env m).1.length =
      env.band_number * (env.band_number - 1) / 2 ∧
    (∀ c ∈ (multiband_correlate_func env m).1,
      c.base_image_path = m.input_img ∧ c.target_image_path = m.input_img) ∧
    ((multiband_correlate_func env m).1.map fun c => (c.base_band, c.target_band)).Nodup ∧
    (∀ i j : Int,
      (i, j) ∈ ((multiband_correlate_func env m).1.map fun c => (c.base_band, c.target_band))
        ↔ 1 ≤ i ∧ i < j ∧ j ≤ (env.band_number : Int)) := by
  have hres : multiband_correlate_func env m =
      ((default_pairs env.band_number).map fun p => multiband_call m
        (os_path_join (if m.output_path ≠ "" then m.output_path else env.cwd)
          (multiband_output_filename (os_path_splitext_root (os_path_basename m.input_img))
            p.1 p.2)) p.1 p.2, none) := by
    unfold multiband_correlate_func
    rw [if_neg (by omega), hbc]
    simp only [multiband_band_combinations]
    rw [default_band_combinations_eq,
      run_band_combinations_pairs env m _ hok (default_pairs env.band_number)]
  rw [hres]
  have hproj : (((default_pairs env.band_number).map fun p => multiband_call m
      (os_path_join (if m.output_path ≠ "" then m.output_path else env.cwd)
        (multiband_output_filename (os_path_splitext_root (os_path_basename m.input_img))
          p.1 p.2)) p.1 p.2).map fun c => (c.base_band, c.target_band)) =
      default_pairs env.band_number := by
    rw [List.map_map]
    exact List.map_id _
  refine ⟨rfl, ?_, ?_, ?_, ?_⟩
  · simp [default_pairs_length]
  · intro c hc
    obtain ⟨p, _, rfl⟩ := List.mem_map.mp hc
    exact ⟨rfl, rfl⟩
  · rw [hproj]
    exact default_pairs_nodup env.band_number
  · intro i j
    rw [hproj]
    exact mem_default_pairs env.band_number i j

/-- Environment for the C8 witness: a four-band raster. -/
def combs_witness_env : MultibandEnv :=
  { band_number := 4, cwd := "/cwd", isdir := fun _ => false }

/-- Arguments for the C8 witness: no band_combination, no output
path. -/
def combs_witness_args : MultibandArgs :=
  { input_img := "/data/scene.tif", band_combination := none, output_path := "",
    method := CorrMethod.frequency, window_size := [64, 64, 64, 64], step := [8, 8],
    grid := false, show_flag := false, pixel_based := false,
    vmin := -1, vmax := 1, mask_th := 0, nb_iters := 4, search_range := none }

/-- Witness for C8: a four-band image yields 4·3/2 = 6 correlations,
among them the pair (1, 4), and never the reversed pair (4, 1). -/
theorem multiband_default_combinations_witness :
    (multiband_correlate_func combs_witness_env combs_witness_args).2 = none ∧
    (multiband_correlate_func combs_witness_env combs_witness_args).1.length = 6 ∧
    ((1, 4) ∈ ((multiband_correlate_func combs_witness_env combs_witness_args).1.map
      fun c => (c.base_band, c.target_band)) ↔ True) ∧
    ((4, 1) ∈ ((multiband_correlate_func combs_witness_env combs_witness_args).1.map
      fun c => (c.base_band, c.target_band)) ↔ False) := by
  have h := multiband_default_combinations combs_witness_env combs_witness_args
    (by decide) rfl (Or.inl rfl)
  refine ⟨h.1, h.2.1.trans (by decide), ?_, ?_⟩
  · rw [h.2.2.2.2 1 4]
    decide
  · rw [h.2.2.2.2 4 1]
    decide

end CosiCorr
